import Mathlib

/-!
Shallow embedding of the NO2 / T21 satellite dashboard
(src/streamlit_app_optimized.py) together with proofs of the spec claims.

The first part models the image pipeline of the overlay view
(lines 304-331 of the source): PIL RGBA images, the integer
alpha-compositing kernel of PIL (AlphaComposite.c, PRECISION_BITS = 7),
putalpha, Image.new, and the resize-to-match step.
-/

/-- One RGBA pixel; channels are byte values. -/
structure RGBA where
  r : Nat
  g : Nat
  b : Nat
  a : Nat
deriving DecidableEq

instance : Inhabited RGBA := ⟨⟨0, 0, 0, 0⟩⟩

/-- A PIL image in RGBA mode: a size and a row-major pixel list. -/
structure Img where
  width : Nat
  height : Nat
  data : List RGBA
deriving DecidableEq

/-- Wellformedness of an RGBA image: the pixel buffer has exactly
width * height entries and every channel is a byte. -/
def Img.wf (im : Img) : Prop :=
  im.data.length = im.width * im.height ∧
  ∀ p ∈ im.data, p.r ≤ 255 ∧ p.g ≤ 255 ∧ p.b ≤ 255 ∧ p.a ≤ 255

instance (im : Img) : Decidable im.wf := by
  unfold Img.wf; infer_instance

/-- The rounded division by 255 used throughout PIL,
SHIFTFORDIV255 in Imaging.h. -/
def shiftForDiv255 (x : Nat) : Nat := ((x >>> 8) + x) >>> 8

/-- outa255 of AlphaComposite.c: src alpha * 255 + dst alpha * (255 - src alpha). -/
def outa255 (sa da : Nat) : Nat := sa * 255 + da * (255 - sa)

/-- coef1 of AlphaComposite.c with PRECISION_BITS = 7 (1 <<< 7 = 128). -/
def coef1 (sa da : Nat) : Nat := sa * 255 * 255 * 128 / outa255 sa da

/-- coef2 of AlphaComposite.c: (255 << PRECISION_BITS) - coef1. -/
def coef2 (sa da : Nat) : Nat := 255 * 128 - coef1 sa da

/-- One colour channel of the composited pixel: 0x80 << 7 = 16384, then
the rounded division by 255 and the final shift by PRECISION_BITS. -/
def outChan (sc dc sa da : Nat) : Nat :=
  shiftForDiv255 (sc * coef1 sa da + dc * coef2 sa da + 16384) >>> 7

/-- The alpha channel of the composited pixel. -/
def outAlpha (sa da : Nat) : Nat := shiftForDiv255 (outa255 sa da + 128)

/-- The per-pixel kernel of Image.alpha_composite: a fully transparent
source leaves the destination pixel, otherwise the integer Porter-Duff
over operator of AlphaComposite.c. -/
def compPixel (dst src : RGBA) : RGBA :=
  if src.a = 0 then dst
  else
    ⟨outChan src.r dst.r src.a dst.a,
     outChan src.g dst.g src.a dst.a,
     outChan src.b dst.b src.a dst.a,
     outAlpha src.a dst.a⟩

/-- Image.alpha_composite im1 im2: im2 (src) composited over im1 (dst).
PIL requires both images to have the same size; the overlay code
establishes that before calling it. -/
def alphaComposite (dst src : Img) : Img :=
  ⟨dst.width, dst.height, List.zipWith compPixel dst.data src.data⟩

/-- im.putalpha k with an integer argument: every pixel of the image gets
alpha k, discarding whatever per-pixel alpha the image had. -/
def Img.putalpha (im : Img) (k : Nat) : Img :=
  ⟨im.width, im.height, im.data.map (fun p => ⟨p.r, p.g, p.b, k⟩)⟩

/-- Image.new in RGBA mode with a constant fill colour. -/
def Img.newRGBA (w h : Nat) (c : RGBA) : Img :=
  ⟨w, h, List.replicate (w * h) c⟩

/-- Pixel lookup with the transparent pixel as default. -/
def Img.getPixel (im : Img) (x y : Nat) : RGBA :=
  im.data.getD (y * im.width + x) ⟨0, 0, 0, 0⟩

/-- im.resize((w, h), LANCZOS).  The source resamples with the LANCZOS
filter, a floating-point convolution; the pixel values here stand in for
it (nearest lookup) and every theorem below relies only on the output
dimensions of resize, never on its pixel values. -/
def Img.resize (im : Img) (w h : Nat) : Img :=
  ⟨w, h, (List.range (w * h)).map
    (fun i => im.getPixel (i % w * im.width / w) (i / w * im.height / h))⟩

/-- Python int(): truncation toward zero. -/
def pyInt (q : ℚ) : Int := if q < 0 then -(Int.floor (-q)) else Int.floor q

/-- int(255 * opacity), the uniform alpha written by putalpha in the
overlay view. -/
def opacityAlpha (o : ℚ) : Nat := (pyInt (255 * o)).toNat

/-- Lines 312-313 of the source: if the two rasters differ in size the
T21 raster is resized to the NO2 size, otherwise it is left alone. -/
def matchSize (no2 t21 : Img) : Img :=
  if (no2.width, no2.height) ≠ (t21.width, t21.height) then
    t21.resize no2.width no2.height
  else t21

/-- Lines 308-328 of the source: the overlay view.  Both layers get a
uniform alpha from their opacity slider, then NO2 and next T21 are
composited over an opaque white base of the NO2 size. -/
def overlayComposite (no2 t21 : Img) (oN oT : ℚ) : Img :=
  let t21r := matchSize no2 t21
  let base := Img.newRGBA no2.width no2.height ⟨255, 255, 255, 255⟩
  let no2a := no2.putalpha (opacityAlpha oN)
  let t21a := t21r.putalpha (opacityAlpha oT)
  alphaComposite (alphaComposite base no2a) t21a

/-! Lemmas about the compositing kernel. -/

lemma opacityAlpha_one : opacityAlpha 1 = 255 := by
  norm_num [opacityAlpha, pyInt]
  rfl

lemma opacityAlpha_zero : opacityAlpha 0 = 0 := by
  norm_num [opacityAlpha, pyInt]

set_option maxRecDepth 2000 in
lemma shiftChan_id : ∀ c < 256, shiftForDiv255 (c * 32640 + 16384) >>> 7 = c := by
  decide

lemma coef1_fullAlpha (da : Nat) : coef1 255 da = 32640 := by
  simp [coef1, outa255]

lemma coef2_fullAlpha (da : Nat) : coef2 255 da = 0 := by
  simp [coef2, coef1_fullAlpha]

lemma outAlpha_fullAlpha (da : Nat) : outAlpha 255 da = 255 := by
  simp [outAlpha, outa255, shiftForDiv255]

lemma outChan_fullAlpha (sc dc da : Nat) (h : sc ≤ 255) :
    outChan sc dc 255 da = sc := by
  simp only [outChan, coef1_fullAlpha, coef2_fullAlpha, Nat.mul_zero, Nat.add_zero]
  exact shiftChan_id sc (Nat.lt_succ_of_le h)

lemma compPixel_fullAlpha (d p : RGBA) (hr : p.r ≤ 255) (hg : p.g ≤ 255)
    (hb : p.b ≤ 255) : compPixel d ⟨p.r, p.g, p.b, 255⟩ = ⟨p.r, p.g, p.b, 255⟩ := by
  simp [compPixel, outChan_fullAlpha, outAlpha_fullAlpha, hr, hg, hb]

lemma compPixel_transparent (d s : RGBA) (h : s.a = 0) : compPixel d s = d := by
  simp [compPixel, h]

lemma zipWith_comp_transparent :
    ∀ (L M : List RGBA), L.length ≤ M.length → (∀ s ∈ M, s.a = 0) →
      List.zipWith compPixel L M = L := by
  intro L
  induction L with
  | nil => intro M _ _; simp
  | cons x xs ih =>
    intro M hlen hM
    cases M with
    | nil => simp at hlen
    | cons y ys =>
      simp only [List.zipWith]
      rw [compPixel_transparent x y (hM y (by simp)),
        ih ys (by simpa using hlen) (fun s hs => hM s (by simp [hs]))]

lemma zipWith_comp_fullAlphaSrc :
    ∀ (L D : List RGBA), L.length ≤ D.length →
      (∀ p ∈ L, p.r ≤ 255 ∧ p.g ≤ 255 ∧ p.b ≤ 255) →
      List.zipWith compPixel D (L.map (fun p => RGBA.mk p.r p.g p.b 255)) =
        L.map (fun p => RGBA.mk p.r p.g p.b 255) := by
  intro L
  induction L with
  | nil => intro D _ _; simp
  | cons x xs ih =>
    intro D hlen hL
    cases D with
    | nil => simp at hlen
    | cons d ds =>
      simp only [List.map, List.zipWith]
      obtain ⟨hr, hg, hb⟩ := hL x (by simp)
      rw [compPixel_fullAlpha d x hr hg hb,
        ih ds (by simpa using hlen) (fun p hp => hL p (by simp [hp]))]

lemma matchSize_eq_of_same (no2 t21 : Img) (hw : t21.width = no2.width)
    (hh : t21.height = no2.height) : matchSize no2 t21 = t21 := by
  unfold matchSize
  rw [if_neg]
  simp [hw, hh]

/-- Helper: the overlay at opacities 1.0 and 0.0 returns the NO2 raster
with every pixel forced fully opaque. -/
lemma overlay_opacity_one_zero (no2 t21 : Img)
    (hw : t21.width = no2.width) (hh : t21.height = no2.height)
    (h1 : no2.wf) (h2 : t21.wf) :
    overlayComposite no2 t21 1 0 =
      ⟨no2.width, no2.height, no2.data.map (fun p => RGBA.mk p.r p.g p.b 255)⟩ := by
  obtain ⟨hlen1, hch1⟩ := h1
  obtain ⟨hlen2, hch2⟩ := h2
  unfold overlayComposite
  rw [matchSize_eq_of_same no2 t21 hw hh, opacityAlpha_one, opacityAlpha_zero]
  unfold alphaComposite Img.putalpha Img.newRGBA
  have e1 : List.zipWith compPixel
      (List.replicate (no2.width * no2.height) ⟨255, 255, 255, 255⟩)
      (no2.data.map (fun p => RGBA.mk p.r p.g p.b 255)) =
      no2.data.map (fun p => RGBA.mk p.r p.g p.b 255) :=
    zipWith_comp_fullAlphaSrc no2.data _ (by simp [hlen1])
      (fun p hp => ⟨(hch1 p hp).1, (hch1 p hp).2.1, (hch1 p hp).2.2.1⟩)
  have e2 : List.zipWith compPixel
      (no2.data.map (fun p => RGBA.mk p.r p.g p.b 255))
      (t21.data.map (fun p => RGBA.mk p.r p.g p.b 0)) =
      no2.data.map (fun p => RGBA.mk p.r p.g p.b 255) := by
    apply zipWith_comp_transparent
    · simp [hlen1, hlen2, hw, hh]
    · intro s hs
      simp only [List.mem_map] at hs
      obtain ⟨p, _, hp⟩ := hs
      rw [← hp]
  simp only []
  rw [e1, e2]

/-- C1 counterexample: at opacities 1.0 / 0.0 the composited result does
not equal the NO2 input when the NO2 raster has a pixel that is not fully
opaque: compositing forces alpha 255 everywhere. -/
theorem C1_counterexample :
    overlayComposite ⟨1, 1, [⟨10, 20, 30, 128⟩]⟩ ⟨1, 1, [⟨0, 0, 0, 0⟩]⟩ 1 0 ≠
      ⟨1, 1, [⟨10, 20, 30, 128⟩]⟩ := by
  rw [overlay_opacity_one_zero ⟨1, 1, [⟨10, 20, 30, 128⟩]⟩ ⟨1, 1, [⟨0, 0, 0, 0⟩]⟩
    rfl rfl (by decide) (by decide)]
  decide

/-- C1 (amended): with the NO2 opacity at 1.0 and the T21 opacity at 0.0,
the overlay compositing returns the NO2 image with its alpha channel
replaced by 255 (fully opaque); the colour channels are unchanged, so for
a fully opaque NO2 raster the result is exactly the NO2 image. -/
theorem C1_overlay_identity (no2 t21 : Img)
    (hw : t21.width = no2.width) (hh : t21.height = no2.height)
    (h1 : no2.wf) (h2 : t21.wf) :
    overlayComposite no2 t21 1 0 =
      ⟨no2.width, no2.height, no2.data.map (fun p => RGBA.mk p.r p.g p.b 255)⟩ :=
  overlay_opacity_one_zero no2 t21 hw hh h1 h2

/-- C1 witness: the amended statement evaluated on concrete rasters; the
fully opaque NO2 raster comes back unchanged. -/
theorem C1_witness :
    overlayComposite ⟨1, 1, [⟨10, 20, 30, 255⟩]⟩ ⟨1, 1, [⟨5, 6, 7, 8⟩]⟩ 1 0 =
      ⟨1, 1, [⟨10, 20, 30, 255⟩]⟩ :=
  C1_overlay_identity ⟨1, 1, [⟨10, 20, 30, 255⟩]⟩ ⟨1, 1, [⟨5, 6, 7, 8⟩]⟩
    rfl rfl (by decide) (by decide)

/-- C6: the overlay output always carries the NO2 dimensions; a size
mismatch routes T21 through resize to the NO2 size, and matching sizes
leave T21 untouched. -/
theorem C6_resize_to_match :
    (∀ (no2 t21 : Img) (oN oT : ℚ),
       (overlayComposite no2 t21 oN oT).width = no2.width ∧
       (overlayComposite no2 t21 oN oT).height = no2.height) ∧
    (∀ no2 t21 : Img,
       ((no2.width, no2.height) ≠ (t21.width, t21.height) →
          matchSize no2 t21 = t21.resize no2.width no2.height ∧
          (matchSize no2 t21).width = no2.width ∧
          (matchSize no2 t21).height = no2.height) ∧
       (t21.width = no2.width → t21.height = no2.height →
          matchSize no2 t21 = t21)) := by
  refine ⟨fun no2 t21 oN oT => ⟨rfl, rfl⟩, fun no2 t21 => ⟨fun hne => ?_, ?_⟩⟩
  · rw [matchSize, if_pos hne]
    exact ⟨rfl, rfl, rfl⟩
  · intro hw hh
    exact matchSize_eq_of_same no2 t21 hw hh

/-- C6 witness: the theorem evaluated on two concrete rasters of
different sizes and on two of equal size. -/
theorem C6_witness :
    ((overlayComposite ⟨2, 1, [⟨1, 2, 3, 4⟩, ⟨5, 6, 7, 8⟩]⟩ ⟨1, 1, [⟨0, 0, 0, 0⟩]⟩ 1 0).width = 2 ∧
     (overlayComposite ⟨2, 1, [⟨1, 2, 3, 4⟩, ⟨5, 6, 7, 8⟩]⟩ ⟨1, 1, [⟨0, 0, 0, 0⟩]⟩ 1 0).height = 1) ∧
    (matchSize ⟨2, 1, [⟨1, 2, 3, 4⟩, ⟨5, 6, 7, 8⟩]⟩ ⟨1, 1, [⟨0, 0, 0, 0⟩]⟩ =
       Img.resize ⟨1, 1, [⟨0, 0, 0, 0⟩]⟩ 2 1) ∧
    (matchSize ⟨1, 1, [⟨1, 2, 3, 4⟩]⟩ ⟨1, 1, [⟨0, 0, 0, 0⟩]⟩ = ⟨1, 1, [⟨0, 0, 0, 0⟩]⟩) :=
  ⟨C6_resize_to_match.1 ⟨2, 1, [⟨1, 2, 3, 4⟩, ⟨5, 6, 7, 8⟩]⟩ ⟨1, 1, [⟨0, 0, 0, 0⟩]⟩ 1 0,
   ((C6_resize_to_match.2 ⟨2, 1, [⟨1, 2, 3, 4⟩, ⟨5, 6, 7, 8⟩]⟩ ⟨1, 1, [⟨0, 0, 0, 0⟩]⟩).1
      (by decide)).1,
   (C6_resize_to_match.2 ⟨1, 1, [⟨1, 2, 3, 4⟩]⟩ ⟨1, 1, [⟨0, 0, 0, 0⟩]⟩).2 rfl rfl⟩

/-- C10: for same-size rasters the overlay is exactly two alpha_composite
calls, NO2 first and then T21, over an opaque white base of the NO2 size,
and putalpha replaces every per-pixel alpha by the one uniform value
int(255 * opacity). -/
theorem C10_overlay_pipeline :
    (∀ (no2 t21 : Img) (oN oT : ℚ), t21.width = no2.width → t21.height = no2.height →
       overlayComposite no2 t21 oN oT =
         alphaComposite
           (alphaComposite (Img.newRGBA no2.width no2.height ⟨255, 255, 255, 255⟩)
             (no2.putalpha (opacityAlpha oN)))
           (t21.putalpha (opacityAlpha oT))) ∧
    (∀ (im : Img) (k : Nat), ∀ p ∈ (im.putalpha k).data, p.a = k) := by
  constructor
  · intro no2 t21 oN oT hw hh
    unfold overlayComposite
    rw [matchSize_eq_of_same no2 t21 hw hh]
  · intro im k p hp
    simp only [Img.putalpha, List.mem_map] at hp
    obtain ⟨q, _, hq⟩ := hp
    rw [← hq]

/-- C10 witness: the pipeline shape and the uniform alpha on concrete
inputs. -/
theorem C10_witness :
    (overlayComposite ⟨1, 1, [⟨1, 2, 3, 4⟩]⟩ ⟨1, 1, [⟨9, 9, 9, 9⟩]⟩ (1/2) (1/4) =
       alphaComposite
         (alphaComposite (Img.newRGBA 1 1 ⟨255, 255, 255, 255⟩)
           (Img.putalpha ⟨1, 1, [⟨1, 2, 3, 4⟩]⟩ (opacityAlpha (1/2))))
         (Img.putalpha ⟨1, 1, [⟨9, 9, 9, 9⟩]⟩ (opacityAlpha (1/4)))) ∧
    (∀ p ∈ (Img.putalpha ⟨1, 1, [⟨9, 9, 9, 9⟩]⟩ 77).data, p.a = 77) :=
  ⟨C10_overlay_pipeline.1 ⟨1, 1, [⟨1, 2, 3, 4⟩]⟩ ⟨1, 1, [⟨9, 9, 9, 9⟩]⟩ (1/2) (1/4) rfl rfl,
   C10_overlay_pipeline.2 ⟨1, 1, [⟨9, 9, 9, 9⟩]⟩ 77⟩

/-!
The tabular data model (lines 151-235 of the source): the CSV rows with a
parsed date, the month selector options, the first row matching the
selected month, and the month-over-month delta block.
-/

/-- A parsed Fecha value (pd.to_datetime of the CSV date column). -/
structure Fecha where
  year : Nat
  month : Nat
  day : Nat
deriving DecidableEq

/-- strftime with format %Y-%m keeps exactly the year and the month. -/
def ym (f : Fecha) : Nat × Nat := (f.year, f.month)

/-- One row of datos_no2_t21.csv after parsing. -/
structure Row where
  fecha : Fecha
  no2 : ℚ
  t21 : ℚ
deriving DecidableEq

instance : Inhabited Row := ⟨⟨⟨0, 0, 0⟩, 0, 0⟩⟩

/-- Lexicographic comparison of the %Y-%m keys: the order python sorted()
uses on the zero-padded month strings. -/
def ymLe (a b : Nat × Nat) : Bool :=
  decide (a.1 < b.1 ∨ (a.1 = b.1 ∧ a.2 ≤ b.2))

/-- Line 197: sorted unique %Y-%m values of the Fecha column. -/
def available_months (df : List Row) : List (Nat × Nat) :=
  ((df.map (fun r => ym r.fecha)).dedup).mergeSort ymLe

/-- Does a row format to the selected month string? -/
def monthPred (m : Nat × Nat) : Row → Bool := fun r => decide (ym r.fecha = m)

/-- Line 206: the first row whose Fecha formats to the selected month. -/
def selected_data (df : List Row) (m : Nat × Nat) : Option Row :=
  df.find? (monthPred m)

/-- Lines 207-216: the NO2 / T21 values shown by the two st.metric calls,
before numeric formatting. -/
def metricPanel (df : List Row) (m : Nat × Nat) : Option (ℚ × ℚ) :=
  (selected_data df m).map (fun r => (r.no2, r.t21))

/-- The positional index of the first matching row,
df[mask].index on a RangeIndex. -/
def firstIdx (p : Row → Bool) : List Row → Option Nat
  | [] => none
  | r :: rs => if p r then some 0 else (firstIdx p rs).map (· + 1)

/-- Lines 217-234: the delta block.  Rendered only when the table has
more than one row and the selected month is not the first row; the NO2
delta is a relative percentage and the T21 delta an absolute difference. -/
def deltaMetrics (df : List Row) (m : Nat × Nat) : Option (ℚ × ℚ) :=
  if 1 < df.length then
    match firstIdx (monthPred m) df with
    | some i =>
      if 0 < i then
        some (((df.getD i default).no2 - (df.getD (i - 1) default).no2) /
                (df.getD (i - 1) default).no2 * 100,
              (df.getD i default).t21 - (df.getD (i - 1) default).t21)
      else none
    | none => none
  else none

lemma firstIdx_spec :
    ∀ (l : List Row) (p : Row → Bool) (i : Nat), firstIdx p l = some i →
      l.find? p = some (l.getD i default) ∧ i < l.length := by
  intro l
  induction l with
  | nil => intro p i h; simp [firstIdx] at h
  | cons r rs ih =>
    intro p i h
    by_cases hp : p r
    · simp [firstIdx, hp] at h
      subst h
      simp [List.find?_cons_of_pos _ hp]
    · have hstep : firstIdx p (r :: rs) = (firstIdx p rs).map (· + 1) := by
        simp [firstIdx, hp]
      rw [hstep] at h
      cases hfj : firstIdx p rs with
      | none => rw [hfj] at h; simp at h
      | some j =>
        rw [hfj] at h
        simp only [Option.map_some', Option.some.injEq] at h
        subst h
        obtain ⟨hfind, hlt⟩ := ih p j hfj
        refine ⟨?_, by simpa using hlt⟩
        rw [List.find?_cons_of_neg _ hp, hfind]
        simp

/-- C3: whenever the selected month is not the first row (and hence the
table has at least two rows), the delta block shows exactly
(current NO2 - previous NO2) / previous NO2 * 100 for the row before the
first matching row; for the first month, or a table with at most one row,
the delta block is absent. -/
theorem C3_delta_formula :
    (∀ (df : List Row) (m : Nat × Nat) (i : Nat),
       firstIdx (monthPred m) df = some i → 0 < i →
       1 < df.length ∧
       selected_data df m = some (df.getD i default) ∧
       deltaMetrics df m = some
         (((df.getD i default).no2 - (df.getD (i - 1) default).no2) /
             (df.getD (i - 1) default).no2 * 100,
          (df.getD i default).t21 - (df.getD (i - 1) default).t21)) ∧
    (∀ (df : List Row) (m : Nat × Nat),
       (firstIdx (monthPred m) df = some 0 ∨ df.length ≤ 1) →
       deltaMetrics df m = none) := by
  constructor
  · intro df m i hidx hi
    obtain ⟨hfind, hlt⟩ := firstIdx_spec df (monthPred m) i hidx
    have hlen : 1 < df.length := lt_of_le_of_lt hi hlt
    refine ⟨hlen, hfind, ?_⟩
    simp [deltaMetrics, hidx, hlen, hi]
  · intro df m h
    rcases h with h | h
    · by_cases hlen : 1 < df.length
      · simp [deltaMetrics, h, hlen]
      · simp [deltaMetrics, hlen]
    · simp [deltaMetrics, Nat.not_lt.mpr h]

/-- C3 witness: a concrete two-row table; the second month gets the
formula, the first month gets no delta block. -/
theorem C3_witness :
    deltaMetrics
        [⟨⟨2024, 1, 1⟩, 2, 300⟩, ⟨⟨2024, 2, 1⟩, 3, 310⟩] (2024, 2) =
      some ((3 - 2) / 2 * 100, 310 - 300) ∧
    deltaMetrics
        [⟨⟨2024, 1, 1⟩, 2, 300⟩, ⟨⟨2024, 2, 1⟩, 3, 310⟩] (2024, 1) = none :=
  ⟨((C3_delta_formula.1
      [⟨⟨2024, 1, 1⟩, 2, 300⟩, ⟨⟨2024, 2, 1⟩, 3, 310⟩] (2024, 2) 1
      (by decide) (by decide)).2.2),
   C3_delta_formula.2
      [⟨⟨2024, 1, 1⟩, 2, 300⟩, ⟨⟨2024, 2, 1⟩, 3, 310⟩] (2024, 1)
      (Or.inl (by decide))⟩

/-- C5: every month offered by the selector corresponds to a data row,
the first row whose Fecha formats to it, and the metric panel shows
exactly that row's NO2 and T21 values. -/
theorem C5_metric_panel :
    ∀ (df : List Row) (m : Nat × Nat), m ∈ available_months df →
      ∃ r, selected_data df m = some r ∧ ym r.fecha = m ∧
        metricPanel df m = some (r.no2, r.t21) := by
  intro df m hm
  have hmem : m ∈ df.map (fun r => ym r.fecha) := by
    have := List.mem_mergeSort.mp hm
    exact List.mem_dedup.mp this
  obtain ⟨r0, hr0, hym0⟩ := List.mem_map.mp hmem
  have hsome : (df.find? (monthPred m)).isSome := by
    rw [List.find?_isSome]
    exact ⟨r0, hr0, by simp [monthPred, hym0]⟩
  obtain ⟨r, hr⟩ := Option.isSome_iff_exists.mp hsome
  have hpr : monthPred m r = true := List.find?_some hr
  refine ⟨r, hr, ?_, ?_⟩
  · exact of_decide_eq_true hpr
  · simp [metricPanel, selected_data, hr]

/-- C5 witness: the metric panel on a concrete table and month. -/
theorem C5_witness :
    (2024, 2) ∈ available_months
        [⟨⟨2024, 1, 1⟩, 2, 300⟩, ⟨⟨2024, 2, 1⟩, 3, 310⟩] ∧
    ∃ r, selected_data
          [⟨⟨2024, 1, 1⟩, 2, 300⟩, ⟨⟨2024, 2, 1⟩, 3, 310⟩] (2024, 2) = some r ∧
        ym r.fecha = (2024, 2) ∧
        metricPanel
          [⟨⟨2024, 1, 1⟩, 2, 300⟩, ⟨⟨2024, 2, 1⟩, 3, 310⟩] (2024, 2) =
          some (r.no2, r.t21) :=
  ⟨by unfold available_months; rw [List.mem_mergeSort]; decide,
   C5_metric_panel [⟨⟨2024, 1, 1⟩, 2, 300⟩, ⟨⟨2024, 2, 1⟩, 3, 310⟩] (2024, 2)
     (by unfold available_months; rw [List.mem_mergeSort]; decide)⟩

/-!
The correlation view (lines 531-617 of the source).  pandas computes the
Pearson coefficient num / sqrt(denomSq) with
num = n * sum(x y) - sum(x) * sum(y) and
denomSq = (n * sum(x x) - sum(x)^2) * (n * sum(y y) - sum(y)^2); the
series are embedded as rational lists and the square root taken in ℝ.
-/
def dot (xs ys : List ℚ) : ℚ := (List.zipWith (· * ·) xs ys).sum

def pearsonNum (xs ys : List ℚ) : ℚ :=
  (xs.length : ℚ) * dot xs ys - xs.sum * ys.sum

def pearsonDenomSq (xs ys : List ℚ) : ℚ :=
  ((xs.length : ℚ) * dot xs xs - xs.sum ^ 2) *
  ((ys.length : ℚ) * dot ys ys - ys.sum ^ 2)

lemma list_sum_eq (xs : List ℚ) :
    xs.sum = ∑ i ∈ Finset.range xs.length, xs.getD i 0 := by
  induction xs with
  | nil => simp
  | cons x t ih =>
    rw [List.sum_cons, ih, List.length_cons, Finset.sum_range_succ']
    simp only [List.getD_cons_succ, List.getD_cons_zero]
    ring

lemma dot_eq :
    ∀ (xs ys : List ℚ), xs.length = ys.length →
      dot xs ys = ∑ i ∈ Finset.range xs.length, xs.getD i 0 * ys.getD i 0 := by
  intro xs
  induction xs with
  | nil => intro ys h; simp [dot]
  | cons x t ih =>
    intro ys h
    cases ys with
    | nil => simp at h
    | cons y u =>
      have hlen : t.length = u.length := by simpa using h
      have hcons : dot (x :: t) (y :: u) = x * y + dot t u := by
        simp [dot]
      rw [hcons, ih u hlen, List.length_cons, Finset.sum_range_succ']
      simp only [List.getD_cons_succ, List.getD_cons_zero]
      ring

lemma expand_sum (n : ℕ) (f g : ℕ → ℚ) (Sf Sg : ℚ) :
    ∑ i ∈ Finset.range n, ((n : ℚ) * f i - Sf) * ((n : ℚ) * g i - Sg) =
      (n : ℚ) ^ 2 * (∑ i ∈ Finset.range n, f i * g i)
        - (n : ℚ) * Sg * (∑ i ∈ Finset.range n, f i)
        - (n : ℚ) * Sf * (∑ i ∈ Finset.range n, g i)
        + (n : ℚ) * (Sf * Sg) := by
  have step : ∀ i ∈ Finset.range n,
      ((n : ℚ) * f i - Sf) * ((n : ℚ) * g i - Sg) =
        (n : ℚ) ^ 2 * (f i * g i) - (n : ℚ) * Sg * f i - (n : ℚ) * Sf * g i
          + Sf * Sg := by
    intro i _
    ring
  rw [Finset.sum_congr rfl step, Finset.sum_add_distrib, Finset.sum_sub_distrib,
    Finset.sum_sub_distrib, ← Finset.mul_sum, ← Finset.mul_sum, ← Finset.mul_sum,
    Finset.sum_const, Finset.card_range, nsmul_eq_mul]

lemma cs_centered (n : ℕ) (f g : ℕ → ℚ) :
    ((n : ℚ) * (∑ i ∈ Finset.range n, f i * g i)
       - (∑ i ∈ Finset.range n, f i) * (∑ i ∈ Finset.range n, g i)) ^ 2 ≤
    ((n : ℚ) * (∑ i ∈ Finset.range n, f i * f i)
       - (∑ i ∈ Finset.range n, f i) ^ 2) *
    ((n : ℚ) * (∑ i ∈ Finset.range n, g i * g i)
       - (∑ i ∈ Finset.range n, g i) ^ 2) := by
  rcases Nat.eq_zero_or_pos n with hn | hn
  · subst hn; simp
  · set Sf := ∑ i ∈ Finset.range n, f i with hSf
    set Sg := ∑ i ∈ Finset.range n, g i with hSg
    set A := ∑ i ∈ Finset.range n, f i * g i with hA
    set Qf := ∑ i ∈ Finset.range n, f i * f i with hQf
    set Qg := ∑ i ∈ Finset.range n, g i * g i with hQg
    have cs := Finset.sum_mul_sq_le_sq_mul_sq (Finset.range n)
      (fun i => (n : ℚ) * f i - Sf) (fun i => (n : ℚ) * g i - Sg)
    have eA : ∑ i ∈ Finset.range n, ((n : ℚ) * f i - Sf) * ((n : ℚ) * g i - Sg) =
        (n : ℚ) * ((n : ℚ) * A - Sf * Sg) := by
      rw [expand_sum n f g Sf Sg, ← hSf, ← hSg, ← hA]
      ring
    have eF : ∑ i ∈ Finset.range n, ((n : ℚ) * f i - Sf) ^ 2 =
        (n : ℚ) * ((n : ℚ) * Qf - Sf ^ 2) := by
      have hsq : ∀ i ∈ Finset.range n, ((n : ℚ) * f i - Sf) ^ 2 =
          ((n : ℚ) * f i - Sf) * ((n : ℚ) * f i - Sf) := by
        intro i _
        ring
      rw [Finset.sum_congr rfl hsq, expand_sum n f f Sf Sf, ← hSf, ← hQf]
      ring
    have eG : ∑ i ∈ Finset.range n, ((n : ℚ) * g i - Sg) ^ 2 =
        (n : ℚ) * ((n : ℚ) * Qg - Sg ^ 2) := by
      have hsq : ∀ i ∈ Finset.range n, ((n : ℚ) * g i - Sg) ^ 2 =
          ((n : ℚ) * g i - Sg) * ((n : ℚ) * g i - Sg) := by
        intro i _
        ring
      rw [Finset.sum_congr rfl hsq, expand_sum n g g Sg Sg, ← hSg, ← hQg]
      ring
    rw [eA, eF, eG] at cs
    have hn2 : (0 : ℚ) < (n : ℚ) ^ 2 := by positivity
    have h3 : (n : ℚ) ^ 2 * (((n : ℚ) * A - Sf * Sg) ^ 2) ≤
        (n : ℚ) ^ 2 * ((((n : ℚ) * Qf - Sf ^ 2)) * (((n : ℚ) * Qg - Sg ^ 2))) := by
      calc (n : ℚ) ^ 2 * (((n : ℚ) * A - Sf * Sg) ^ 2)
          = ((n : ℚ) * ((n : ℚ) * A - Sf * Sg)) ^ 2 := by ring
        _ ≤ ((n : ℚ) * ((n : ℚ) * Qf - Sf ^ 2)) * ((n : ℚ) * ((n : ℚ) * Qg - Sg ^ 2)) := cs
        _ = (n : ℚ) ^ 2 * ((((n : ℚ) * Qf - Sf ^ 2)) * (((n : ℚ) * Qg - Sg ^ 2))) := by
            ring
    exact le_of_mul_le_mul_left h3 hn2

lemma pearson_cs (xs ys : List ℚ) (h : xs.length = ys.length) :
    (pearsonNum xs ys) ^ 2 ≤ pearsonDenomSq xs ys := by
  have hs1 : xs.sum = ∑ i ∈ Finset.range xs.length, xs.getD i 0 := list_sum_eq xs
  have hs2 : ys.sum = ∑ i ∈ Finset.range xs.length, ys.getD i 0 := by
    rw [list_sum_eq ys, ← h]
  have hd : dot xs ys = ∑ i ∈ Finset.range xs.length, xs.getD i 0 * ys.getD i 0 :=
    dot_eq xs ys h
  have hdx : dot xs xs = ∑ i ∈ Finset.range xs.length, xs.getD i 0 * xs.getD i 0 :=
    dot_eq xs xs rfl
  have hdy : dot ys ys = ∑ i ∈ Finset.range xs.length, ys.getD i 0 * ys.getD i 0 := by
    rw [dot_eq ys ys rfl, ← h]
  unfold pearsonNum pearsonDenomSq
  rw [hs1, hs2, hd, hdx, hdy, h]
  rw [← h]
  exact cs_centered xs.length (fun i => xs.getD i 0) (fun i => ys.getD i 0)

lemma pearson_bound_real (xs ys : List ℚ) (h : xs.length = ys.length)
    (hpos : 0 < pearsonDenomSq xs ys) :
    -1 ≤ (pearsonNum xs ys : ℝ) / Real.sqrt ((pearsonDenomSq xs ys : ℚ) : ℝ) ∧
    (pearsonNum xs ys : ℝ) / Real.sqrt ((pearsonDenomSq xs ys : ℚ) : ℝ) ≤ 1 := by
  have hq := pearson_cs xs ys h
  have hD : (0 : ℝ) < ((pearsonDenomSq xs ys : ℚ) : ℝ) := by exact_mod_cast hpos
  have hND : ((pearsonNum xs ys : ℚ) : ℝ) ^ 2 ≤ ((pearsonDenomSq xs ys : ℚ) : ℝ) := by
    exact_mod_cast hq
  have hs : 0 < Real.sqrt ((pearsonDenomSq xs ys : ℚ) : ℝ) := Real.sqrt_pos.mpr hD
  have habs : |((pearsonNum xs ys : ℚ) : ℝ)| ≤
      Real.sqrt ((pearsonDenomSq xs ys : ℚ) : ℝ) := by
    rw [← Real.sqrt_sq_eq_abs]
    exact Real.sqrt_le_sqrt hND
  have hdiv : |((pearsonNum xs ys : ℚ) : ℝ) /
      Real.sqrt ((pearsonDenomSq xs ys : ℚ) : ℝ)| ≤ 1 := by
    rw [abs_div, abs_of_pos hs]
    exact (div_le_one hs).mpr habs
  exact abs_le.mp hdiv

example : (0 : ℚ) < pearsonDenomSq [0, 1] [0, 1] := by
  norm_num [pearsonDenomSq, dot]

/-- The three qualitative labels of the interpretation block. -/
inductive CorrStrength where
  | weak
  | moderate
  | strong
deriving DecidableEq

/-- Lines 603-617: abs(correlation) below 0.3 is weak, below 0.7 moderate,
otherwise strong. -/
def corrLabel (r : ℚ) : CorrStrength :=
  if |r| < 3 / 10 then CorrStrength.weak
  else if |r| < 7 / 10 then CorrStrength.moderate
  else CorrStrength.strong

/-- C2: the Pearson coefficient of two equal-length series with nonzero
variances lies in [-1, 1], and the strength labels partition the line:
weak exactly below 0.3, moderate exactly on [0.3, 0.7), strong exactly
from 0.7 on, so every value of r gets exactly one label. -/
theorem C2_pearson_range_and_labels :
    (∀ (xs ys : List ℚ), xs.length = ys.length → 0 < pearsonDenomSq xs ys →
       -1 ≤ (pearsonNum xs ys : ℝ) / Real.sqrt ((pearsonDenomSq xs ys : ℚ) : ℝ) ∧
       (pearsonNum xs ys : ℝ) / Real.sqrt ((pearsonDenomSq xs ys : ℚ) : ℝ) ≤ 1) ∧
    (∀ r : ℚ,
       (corrLabel r = CorrStrength.weak ↔ |r| < 3 / 10) ∧
       (corrLabel r = CorrStrength.moderate ↔ 3 / 10 ≤ |r| ∧ |r| < 7 / 10) ∧
       (corrLabel r = CorrStrength.strong ↔ 7 / 10 ≤ |r|)) := by
  constructor
  · intro xs ys h hpos
    exact pearson_bound_real xs ys h hpos
  · intro r
    rcases lt_or_le |r| (3 / 10) with h1 | h1
    · rw [corrLabel, if_pos h1]
      exact ⟨iff_of_true rfl h1,
        iff_of_false (by decide) (by rintro ⟨h2, _⟩; linarith),
        iff_of_false (by decide) (by intro h2; linarith)⟩
    · rcases lt_or_le |r| (7 / 10) with h2 | h2
      · rw [corrLabel, if_neg (not_lt.mpr h1), if_pos h2]
        exact ⟨iff_of_false (by decide) (by intro h3; linarith),
          iff_of_true rfl ⟨h1, h2⟩,
          iff_of_false (by decide) (by intro h3; linarith)⟩
      · rw [corrLabel, if_neg (not_lt.mpr h1), if_neg (not_lt.mpr h2)]
        exact ⟨iff_of_false (by decide) (by intro h3; linarith),
          iff_of_false (by decide) (by rintro ⟨_, h4⟩; linarith),
          iff_of_true rfl h2⟩

/-- C2 witness: the bound instantiated on the concrete series
[0, 1] and [0, 1], whose denominator is 1, and the label
characterization at r = 1/2. -/
theorem C2_witness :
    (0 < pearsonDenomSq [0, 1] [0, 1] ∧
     -1 ≤ (pearsonNum [0, 1] [0, 1] : ℝ) /
         Real.sqrt ((pearsonDenomSq [0, 1] [0, 1] : ℚ) : ℝ) ∧
     (pearsonNum [0, 1] [0, 1] : ℝ) /
         Real.sqrt ((pearsonDenomSq [0, 1] [0, 1] : ℚ) : ℝ) ≤ 1) ∧
    (corrLabel (1 / 2) = CorrStrength.moderate ↔
       3 / 10 ≤ |(1 : ℚ) / 2| ∧ |(1 : ℚ) / 2| < 7 / 10) := by
  have hpos : (0 : ℚ) < pearsonDenomSq [0, 1] [0, 1] := by
    norm_num [pearsonDenomSq, dot]
  exact ⟨⟨hpos, C2_pearson_range_and_labels.1 [0, 1] [0, 1] rfl hpos⟩,
    (C2_pearson_range_and_labels.2 (1 / 2)).2.1⟩

/-!
The page flow (lines 181-749 of the source): loading, the error branch
with st.stop, the metric row, and the four tabs, rendered as a list of
items.  st.stop ends the script, so nothing follows the stop marker.
-/

/-- metadata.json content: an opaque key-value record, read once. -/
def Meta : Type := List (String × String)

instance : DecidableEq Meta := by
  unfold Meta; infer_instance

/-- The three display modes of the map tab (line 254). -/
inductive ViewMode where
  | sideBySide
  | overlayMode
  | single
deriving DecidableEq

/-- The layer radio of the individual view (line 344). -/
inductive LayerChoice where
  | no2Layer
  | t21Layer
deriving DecidableEq

/-- What is on disk: the CSV rows and metadata when their files exist,
the monthly_images directory flag, and the two rasters of the selected
month when their files exist. -/
structure Env where
  csv : Option (List Row)
  meta : Option Meta
  imgDirExists : Bool
  no2Img : Option Img
  t21Img : Option Img

/-- The widget state: selected month, view mode, the two opacity
sliders, the blend-mode selectbox and the layer radio. -/
structure UI where
  selectedMonth : Nat × Nat
  viewMode : ViewMode
  opacityNO2 : ℚ
  opacityT21 : ℚ
  blendMode : String
  layerChoice : LayerChoice

/-- The user-facing message built in the FileNotFoundError branch of
load_data (lines 166-175). -/
def errMissingFiles : String :=
  "Archivos no encontrados. Debes ejecutar primero el script de descarga: python 01_download_data.py"

/-- Lines 151-176: load_data returns (df, metadata, None) when both the
CSV and metadata.json can be read and (None, None, message) when either
file is missing. -/
def load_data (env : Env) : Option (List Row) × Option Meta × Option String :=
  match env.csv, env.meta with
  | some df, some m => (some df, some m, none)
  | _, _ => (none, none, some errMissingFiles)

/-- One rendered element of the page, in document order. -/
inductive Item where
  | themeControls
  | errorBox (msg : String)
  | infoNote (msg : String)
  | codeBlock (code : String)
  | stopMarker
  | raiseMarker
  | pageTitle
  | pageSubtitle
  | monthSelector (options : List (Nat × Nat))
  | metricNO2 (v : ℚ)
  | metricT21 (v : ℚ)
  | metricDeltaNO2 (v : ℚ)
  | metricDeltaT21 (v : ℚ)
  | usageTip
  | tabsBar
  | mapHeader
  | warnBox (msg : String)
  | viewModeRadio
  | colHeader (s : String)
  | imageDisplay (im : Img)
  | imgMissing (name : String)
  | overlayControls
  | opacityCaption
  | legendsExpander
  | mapTips
  | tsChart
  | statsMetrics
  | dataTableView
  | corrScatter
  | corrCoefBox
  | corrInterpBox
  | infoTabContent
  | footer
deriving DecidableEq

/-- Lines 217-234: the two delta st.metric calls, shown only when the
delta block computes values. -/
def deltaItems (df : List Row) (m : Nat × Nat) : List Item :=
  match deltaMetrics df m with
  | some (d1, d2) => [Item.metricDeltaNO2 d1, Item.metricDeltaT21 d2]
  | none => []

/-- Lines 197-235: the metric row for the selected month.  A month with
no matching row would raise IndexError at iloc[0]; the selector only
offers months of the data. -/
def metricBlockItems (df : List Row) (m : Nat × Nat) : List Item :=
  match selected_data df m with
  | some r => [Item.metricNO2 r.no2, Item.metricT21 r.t21] ++ deltaItems df m ++
      [Item.usageTip]
  | none => [Item.raiseMarker]

/-- Lines 263-282: the side-by-side mode; each panel shows its raster or
a per-panel error message. -/
def sideBySideItems (env : Env) : List Item :=
  [Item.colHeader "NO2"] ++
  (match env.no2Img with
   | some im => [Item.imageDisplay im]
   | none => [Item.imgMissing "no2"]) ++
  [Item.colHeader "T21"] ++
  (match env.t21Img with
   | some im => [Item.imageDisplay im]
   | none => [Item.imgMissing "t21"])

/-- Lines 285-340: the overlay mode; blend_mode is read from its
selectbox but the compositing never consults it. -/
def overlayItems (env : Env) (oN oT : ℚ) (bm : String) : List Item :=
  [Item.overlayControls] ++
  match env.no2Img, env.t21Img with
  | some a, some b =>
      [Item.imageDisplay (overlayComposite a b oN oT), Item.opacityCaption]
  | _, _ => [Item.imgMissing "overlay"]

/-- Lines 342-367: the individual view. -/
def singleItems (env : Env) (c : LayerChoice) : List Item :=
  match c with
  | LayerChoice.no2Layer =>
      [Item.colHeader "NO2"] ++
      (match env.no2Img with
       | some im => [Item.imageDisplay im]
       | none => [Item.imgMissing "no2"])
  | LayerChoice.t21Layer =>
      [Item.colHeader "T21"] ++
      (match env.t21Img with
       | some im => [Item.imageDisplay im]
       | none => [Item.imgMissing "t21"])

/-- Lines 245-400: the whole map tab; legends and tips render for every
mode, and a missing monthly_images directory only yields a warning. -/
def mapTabItems (env : Env) (ui : UI) : List Item :=
  [Item.mapHeader] ++
  if env.imgDirExists then
    [Item.viewModeRadio] ++
    (match ui.viewMode with
     | ViewMode.sideBySide => sideBySideItems env
     | ViewMode.overlayMode =>
         overlayItems env ui.opacityNO2 ui.opacityT21 ui.blendMode
     | ViewMode.single => singleItems env ui.layerChoice) ++
    [Item.legendsExpander, Item.mapTips]
  else [Item.warnBox "monthly_images"]

/-- Lines 405-526: the time-series tab. -/
def tab2Items : List Item := [Item.tsChart, Item.statsMetrics, Item.dataTableView]

/-- Lines 531-638: the correlation tab. -/
def tab3Items : List Item := [Item.corrScatter, Item.corrCoefBox, Item.corrInterpBox]

/-- Lines 643-738: the static info tab. -/
def tab4Items : List Item := [Item.infoTabContent]

/-- Lines 37-749: the full page.  The theme radio and CSS render before
load_data; on a load error the page is exactly the error box, the help
note, the code snippet and the stop. -/
def appRender (env : Env) (ui : UI) : List Item :=
  [Item.themeControls] ++
  match load_data env with
  | (_, _, some e) =>
      [Item.errorBox e, Item.infoNote "earth-engine-auth",
       Item.codeBlock "ee.Authenticate", Item.stopMarker]
  | (some df, some _, none) =>
      [Item.pageTitle, Item.pageSubtitle,
       Item.monthSelector (available_months df)] ++
      metricBlockItems df ui.selectedMonth ++ [Item.tabsBar] ++
      mapTabItems env ui ++ tab2Items ++ tab3Items ++ tab4Items ++ [Item.footer]
  | (_, _, none) => [Item.raiseMarker]

lemma deltaItems_shape (df : List Row) (m : Nat × Nat) :
    deltaItems df m = [] ∨
    ∃ d1 d2, deltaItems df m = [Item.metricDeltaNO2 d1, Item.metricDeltaT21 d2] := by
  unfold deltaItems
  cases h : deltaMetrics df m with
  | none => exact Or.inl rfl
  | some v => exact Or.inr ⟨v.1, v.2, by cases v; rfl⟩

/-- C4: a missing CSV or metadata file makes load_data return
(None, None, error) with a non-empty message, and the page is then
exactly the theme controls, the error box, the help note, the code
snippet and the stop: no metric, raster, or chart renders. -/
theorem C4_missing_files_halt :
    ∀ (env : Env) (ui : UI), env.csv = none ∨ env.meta = none →
      load_data env = (none, none, some errMissingFiles) ∧
      errMissingFiles ≠ "" ∧
      appRender env ui = [Item.themeControls, Item.errorBox errMissingFiles,
        Item.infoNote "earth-engine-auth", Item.codeBlock "ee.Authenticate",
        Item.stopMarker] ∧
      (∀ v : ℚ, Item.metricNO2 v ∉ appRender env ui) ∧
      (∀ im : Img, Item.imageDisplay im ∉ appRender env ui) ∧
      Item.tsChart ∉ appRender env ui ∧
      Item.corrScatter ∉ appRender env ui := by
  intro env ui h
  obtain ⟨csv, meta, idir, ni, ti⟩ := env
  have hld : load_data ⟨csv, meta, idir, ni, ti⟩ = (none, none, some errMissingFiles) := by
    rcases h with h | h
    · have hc : csv = none := h
      subst hc
      cases meta <;> rfl
    · have hm : meta = none := h
      subst hm
      cases csv <;> rfl
  have happ : appRender ⟨csv, meta, idir, ni, ti⟩ ui =
      [Item.themeControls, Item.errorBox errMissingFiles,
       Item.infoNote "earth-engine-auth", Item.codeBlock "ee.Authenticate",
       Item.stopMarker] := by
    unfold appRender
    rw [hld]
    rfl
  refine ⟨hld, by simp [errMissingFiles], happ, ?_, ?_, ?_, ?_⟩
  · intro v hv
    rw [happ] at hv
    simp at hv
  · intro im hv
    rw [happ] at hv
    simp at hv
  · intro hv
    rw [happ] at hv
    simp at hv
  · intro hv
    rw [happ] at hv
    simp at hv

/-- C4 witness: the theorem at a concrete filesystem with no CSV. -/
theorem C4_witness :
    load_data ⟨none, none, false, none, none⟩ = (none, none, some errMissingFiles) ∧
    appRender ⟨none, none, false, none, none⟩
        ⟨(2024, 1), ViewMode.sideBySide, 1, 1 / 2, "Normal", LayerChoice.no2Layer⟩ =
      [Item.themeControls, Item.errorBox errMissingFiles,
       Item.infoNote "earth-engine-auth", Item.codeBlock "ee.Authenticate",
       Item.stopMarker] := by
  have h := C4_missing_files_halt ⟨none, none, false, none, none⟩
    ⟨(2024, 1), ViewMode.sideBySide, 1, 1 / 2, "Normal", LayerChoice.no2Layer⟩
    (Or.inl rfl)
  exact ⟨h.1, h.2.2.1⟩

/-- C8: the blend-mode selectbox value never reaches the compositing, so
two renders differing only in the blend mode are identical. -/
theorem C8_blend_mode_no_influence :
    ∀ (env : Env) (ui : UI) (b1 b2 : String),
      appRender env { ui with blendMode := b1 } =
      appRender env { ui with blendMode := b2 } := by
  intro env ui b1 b2
  cases ui
  rfl

/-- C9: with the data loaded, the image directory present and the
side-by-side mode active, a missing NO2 raster yields only a per-panel
error: the T21 panel, legends, tips, the other tabs and the footer still
render, there is no stop, and no error appears for the T21 panel. -/
theorem C9_missing_raster_partial :
    ∀ (df : List Row) (md : Meta) (timg : Img) (ui : UI) (r : Row),
      ui.viewMode = ViewMode.sideBySide →
      selected_data df ui.selectedMonth = some r →
      Item.imgMissing "no2" ∈ appRender ⟨some df, some md, true, none, some timg⟩ ui ∧
      Item.imageDisplay timg ∈ appRender ⟨some df, some md, true, none, some timg⟩ ui ∧
      Item.legendsExpander ∈ appRender ⟨some df, some md, true, none, some timg⟩ ui ∧
      Item.mapTips ∈ appRender ⟨some df, some md, true, none, some timg⟩ ui ∧
      Item.tsChart ∈ appRender ⟨some df, some md, true, none, some timg⟩ ui ∧
      Item.corrScatter ∈ appRender ⟨some df, some md, true, none, some timg⟩ ui ∧
      Item.infoTabContent ∈ appRender ⟨some df, some md, true, none, some timg⟩ ui ∧
      Item.footer ∈ appRender ⟨some df, some md, true, none, some timg⟩ ui ∧
      Item.stopMarker ∉ appRender ⟨some df, some md, true, none, some timg⟩ ui ∧
      Item.imgMissing "t21" ∉ appRender ⟨some df, some md, true, none, some timg⟩ ui := by
  intro df md timg ui r hvm hsel
  have happ : appRender ⟨some df, some md, true, none, some timg⟩ ui =
      [Item.themeControls, Item.pageTitle, Item.pageSubtitle,
       Item.monthSelector (available_months df),
       Item.metricNO2 r.no2, Item.metricT21 r.t21] ++
      deltaItems df ui.selectedMonth ++
      [Item.usageTip, Item.tabsBar, Item.mapHeader, Item.viewModeRadio,
       Item.colHeader "NO2", Item.imgMissing "no2",
       Item.colHeader "T21", Item.imageDisplay timg,
       Item.legendsExpander, Item.mapTips,
       Item.tsChart, Item.statsMetrics, Item.dataTableView,
       Item.corrScatter, Item.corrCoefBox, Item.corrInterpBox,
       Item.infoTabContent, Item.footer] := by
    simp [appRender, load_data, metricBlockItems, mapTabItems, sideBySideItems,
      tab2Items, tab3Items, tab4Items, hsel, hvm]
  rw [happ]
  rcases deltaItems_shape df ui.selectedMonth with hd | ⟨d1, d2, hd⟩ <;>
    rw [hd] <;> simp

/-- C9 witness: a one-row table with the NO2 raster missing; the per-panel
error shows, the T21 panel renders and nothing stops. -/
theorem C9_witness :
    Item.imgMissing "no2" ∈
      appRender ⟨some [⟨⟨2024, 1, 1⟩, 2, 300⟩], some [], true, none,
          some ⟨1, 1, [⟨0, 0, 0, 0⟩]⟩⟩
        ⟨(2024, 1), ViewMode.sideBySide, 1, 1 / 2, "Normal", LayerChoice.no2Layer⟩ ∧
    Item.imageDisplay ⟨1, 1, [⟨0, 0, 0, 0⟩]⟩ ∈
      appRender ⟨some [⟨⟨2024, 1, 1⟩, 2, 300⟩], some [], true, none,
          some ⟨1, 1, [⟨0, 0, 0, 0⟩]⟩⟩
        ⟨(2024, 1), ViewMode.sideBySide, 1, 1 / 2, "Normal", LayerChoice.no2Layer⟩ ∧
    Item.stopMarker ∉
      appRender ⟨some [⟨⟨2024, 1, 1⟩, 2, 300⟩], some [], true, none,
          some ⟨1, 1, [⟨0, 0, 0, 0⟩]⟩⟩
        ⟨(2024, 1), ViewMode.sideBySide, 1, 1 / 2, "Normal", LayerChoice.no2Layer⟩ := by
  have h := C9_missing_raster_partial [⟨⟨2024, 1, 1⟩, 2, 300⟩] [] ⟨1, 1, [⟨0, 0, 0, 0⟩]⟩
    ⟨(2024, 1), ViewMode.sideBySide, 1, 1 / 2, "Normal", LayerChoice.no2Layer⟩
    ⟨⟨2024, 1, 1⟩, 2, 300⟩ rfl rfl
  exact ⟨h.1, h.2.1, h.2.2.2.2.2.2.2.2.1⟩

/-!
The data-table expander of the time-series tab (lines 521-526 of the
source): df_display = df.copy() followed by three column reassignments;
the copy is formatted, the loaded dataframe is left as it was.
-/

/-- A cell of the display table: a datetime, a number, or the string the
column assignments put in its place. -/
inductive Cell where
  | date (f : Fecha)
  | num (q : ℚ)
  | str (s : String)
deriving DecidableEq

/-- One row of df_display. -/
structure DRow where
  fecha : Cell
  no2 : Cell
  t21 : Cell
deriving DecidableEq

/-- df.copy(): the display table starts as an independent copy of the
loaded rows. -/
def toDRow (r : Row) : DRow := ⟨Cell.date r.fecha, Cell.num r.no2, Cell.num r.t21⟩

/-- Two-digit zero padding of the month, as strftime %m prints it. -/
def pad2 (n : Nat) : String := if n < 10 then "0" ++ toString n else toString n

/-- strftime with format %Y-%m. -/
def fmtYMStr (f : Fecha) : String := toString f.year ++ "-" ++ pad2 f.month

/-- The Fecha column assignment: dt.strftime replaces the datetime cell
by its %Y-%m string. -/
def fmtDateCell (c : Cell) : Cell :=
  match c with
  | Cell.date f => Cell.str (fmtYMStr f)
  | c => c

/-- A numeric column assignment through .apply with an f-string
formatter; the numeric-to-text formatting itself is the format function
argument. -/
def fmtNumCell (fmt : ℚ → String) (c : Cell) : Cell :=
  match c with
  | Cell.num q => Cell.str (fmt q)
  | c => c

/-- The environment of the expander body: the object the variable df
refers to. -/
structure PyEnv where
  df : List Row
deriving DecidableEq

/-- Lines 521-526: build df_display from a copy of df, replace its three
columns by formatted strings, and return the shown table together with
the state of df after the block. -/
def runDataTable (sciFmt fixFmt : ℚ → String) (s : PyEnv) : List DRow × PyEnv :=
  let display0 := s.df.map toDRow
  let display1 := display0.map (fun r => { r with fecha := fmtDateCell r.fecha })
  let display2 := display1.map (fun r => { r with no2 := fmtNumCell sciFmt r.no2 })
  let display3 := display2.map (fun r => { r with t21 := fmtNumCell fixFmt r.t21 })
  (display3, s)

/-- C7: the data-table view formats a copy: the displayed rows are the
formatted originals and the loaded dataframe is unchanged by the block. -/
theorem C7_data_table_no_mutation :
    ∀ (sciFmt fixFmt : ℚ → String) (s : PyEnv),
      (runDataTable sciFmt fixFmt s).2 = s ∧
      (runDataTable sciFmt fixFmt s).1 =
        s.df.map (fun r => DRow.mk (Cell.str (fmtYMStr r.fecha))
          (Cell.str (sciFmt r.no2)) (Cell.str (fixFmt r.t21))) := by
  intro sciFmt fixFmt s
  refine ⟨rfl, ?_⟩
  unfold runDataTable
  simp only [List.map_map]
  rfl
